import Mathlib

/-!
Shallow embedding of the tikky counter-service request handlers
(Go package `api`: WriteHandler, ReadHandler, HealthHandler,
MetricsHandler, writeJSON, writeJSONError) together with the store
contract they rely on, and theorems checking the specification's
claims against them.

The handlers are modelled as pure functions from the request and the
outcomes the external store would give for this invocation to a pair:
the list of store calls the handler issued, and the ordered trace of
operations performed on the response writer (header set, status
committed, body chunks written).
-/

/-- HTTP-style request, as the handlers see it: they inspect only the
method (`r.Method` in the Go code); path, headers and body are carried
so independence from them can be stated. -/
structure Request where
  method : String
  path : String
  headers : List (String × String)
  body : String
deriving DecidableEq, Repr

/-- Outcome of the store's atomic increment for this invocation:
`Incr(key) -> (int64, error)`. -/
inductive IncrResult where
  | ok (v : Int)
  | err (e : String)
deriving DecidableEq, Repr

/-- Raw outcome of the store's `GET key`: a present string value, the
absent-key sentinel (`redis.Nil`), or a communication error. -/
inductive GetRaw where
  | found (s : String)
  | absent
  | err (e : String)
deriving DecidableEq, Repr

/-- Outcome of the store's liveness probe `PING`. -/
inductive PingResult where
  | ok
  | err (e : String)
deriving DecidableEq, Repr

/-- The store outcomes visible to one handler invocation. -/
structure Store where
  incr : IncrResult
  get : GetRaw
  ping : PingResult
deriving DecidableEq, Repr

/-- A store call issued by a handler, with the key it targets. -/
inductive StoreCall where
  | incr (key : String)
  | get (key : String)
  | ping
deriving DecidableEq, Repr

/-- One operation on the response writer. The trace order is the order
the handler performs them in. -/
inductive WriterEvent where
  | setHeader (name value : String)
  | writeHeader (status : Nat)
  | write (chunk : String)
deriving DecidableEq, Repr

/-- The fixed counter key (`const redisCounterKey = "counter"`). -/
def redisCounterKey : String := "counter"

/-- Base-10 digit string to a natural number. -/
def digitsToNat (l : List Char) : Nat :=
  l.foldl (fun a c => a * 10 + (c.toNat - 48)) 0

/-- Model of Go `strconv.ParseInt(s, 10, 64)` as used by go-redis
`StringCmd.Int64`: optional sign, non-empty run of decimal digits,
result within the signed 64-bit range; `none` on any failure. -/
def parseInt64 (s : String) : Option Int :=
  let p : Int × List Char :=
    match s.data with
    | '+' :: rest => (1, rest)
    | '-' :: rest => (-1, rest)
    | rest => (1, rest)
  if p.2 = [] then none
  else if p.2.all Char.isDigit then
    let n : Int := p.1 * (digitsToNat p.2 : Int)
    if -(2 ^ 63) ≤ n ∧ n ≤ 2 ^ 63 - 1 then some n else none
  else none

/-- Result of `StringCmd.Int64()`: the parsed value, the `redis.Nil`
error, or any other error (communication failure or parse failure). -/
inductive Int64Result where
  | ok (v : Int)
  | nilErr
  | otherErr
deriving DecidableEq, Repr

/-- `Get(ctx, key).Int64()`: a command error (including `redis.Nil`)
propagates; otherwise the string value is parsed as a 64-bit integer. -/
def getInt64 : GetRaw → Int64Result
  | .absent => .nilErr
  | .err _ => .otherErr
  | .found s =>
    match parseInt64 s with
    | some v => .ok v
    | none => .otherErr

/-- Go `json.Encoder.Encode` of `map[string]int64{"value": v}`:
object with the single key, then a newline. -/
def jsonValue (v : Int) : String :=
  "\x7b\"value\":" ++ toString v ++ "\x7d\n"

/-- Go `json.Encoder.Encode` of `map[string]string{"error": msg}`. -/
def jsonError (msg : String) : String :=
  "\x7b\"error\":\"" ++ msg ++ "\"\x7d\n"

/-- Encoding of the health-success map (Go sorts map keys):
status/service/redis plus the constant extra field. -/
def healthOkBody : String :=
  "\x7b\"redis\":\"connected\",\"service\":\"tikky-api\",\"status\":\"healthy\",\"vibe\":\"immaculate\"\x7d\n"

/-- `writeJSON`: sets the JSON content type, commits the status, then
encodes the body onto the wire; `encodeOk = false` models an encoding
failure, which is only logged (no body write, status already sent). -/
def writeJSON (status : Nat) (body : String) (encodeOk : Bool) : List WriterEvent :=
  [.setHeader "Content-Type" "application/json", .writeHeader status] ++
    (if encodeOk then [.write body] else [])

/-- `writeJSONError`: `writeJSON` of the error-shaped object. -/
def writeJSONError (status : Nat) (msg : String) (encodeOk : Bool) : List WriterEvent :=
  writeJSON status (jsonError msg) encodeOk

/-- `WriteHandler`: POST only; one `Incr` on the counter key; 200 with
the store's returned value on success, 500 with a generic message on
store error. -/
def WriteHandler (store : Store) (encodeOk : Bool) (r : Request) :
    List StoreCall × List WriterEvent :=
  if r.method ≠ "POST" then
    ([], writeJSONError 405 "Only POST method is allowed" encodeOk)
  else
    match store.incr with
    | .err _ => ([.incr redisCounterKey], writeJSONError 500 "Failed to update counter" encodeOk)
    | .ok v => ([.incr redisCounterKey], writeJSON 200 (jsonValue v) encodeOk)

/-- `ReadHandler`: GET only; one `Get(...).Int64()`; absent key is 200
with value 0, any other error is 500, otherwise 200 with the value. -/
def ReadHandler (store : Store) (encodeOk : Bool) (r : Request) :
    List StoreCall × List WriterEvent :=
  if r.method ≠ "GET" then
    ([], writeJSONError 405 "Only GET method is allowed" encodeOk)
  else
    match getInt64 store.get with
    | .nilErr => ([.get redisCounterKey], writeJSON 200 (jsonValue 0) encodeOk)
    | .otherErr => ([.get redisCounterKey], writeJSONError 500 "Failed to read counter" encodeOk)
    | .ok v => ([.get redisCounterKey], writeJSON 200 (jsonValue v) encodeOk)

/-- `HealthHandler`: GET only; one `Ping`; 200 with the health JSON on
success, 503 with the unavailable message on probe failure. -/
def HealthHandler (store : Store) (encodeOk : Bool) (r : Request) :
    List StoreCall × List WriterEvent :=
  if r.method ≠ "GET" then
    ([], writeJSONError 405 "Only GET method is allowed" encodeOk)
  else
    match store.ping with
    | .err _ => ([.ping], writeJSONError 503 "Redis unavailable" encodeOk)
    | .ok => ([.ping], writeJSON 200 healthOkBody encodeOk)

/-- Counter value exported by the metrics endpoint: the read value,
0 on `redis.Nil`, the sentinel -1 on any other read error. -/
def metricsVal (g : GetRaw) : Int :=
  match getInt64 g with
  | .ok v => v
  | .nilErr => 0
  | .otherErr => -1

/-- Connectivity gauge exported by the metrics endpoint: 1 when the
probe succeeds, 0 when it errors. -/
def metricsConn : PingResult → Nat
  | .ok => 1
  | .err _ => 0

/-- The `fmt.Sprintf` of the Prometheus template with the counter value
and the connectivity gauge substituted for the two `%d` verbs. -/
def metricsBody (val : Int) (conn : Nat) : String :=
  "# HELP tikky_counter_total Total counter value (goes brrr)\n# TYPE tikky_counter_total counter\ntikky_counter_total " ++
    (toString val ++
      ("\n\n# HELP tikky_redis_connected Redis connection status (1=connected, 0=disconnected)\n# TYPE tikky_redis_connected gauge\ntikky_redis_connected " ++
        (toString conn ++
          "\n\n# HELP tikky_build_info Build information\n# TYPE tikky_build_info gauge\ntikky_build_info\x7bversion=\"1.0.0\",service=\"tikky-api\"\x7d 1\n")))

/-- `MetricsHandler`: GET only; a counter read (errors degrade to
sentinel values), then the plaintext content type, a committed 200, a
liveness probe for the gauge, and one body write. Never fails. -/
def MetricsHandler (store : Store) (encodeOk : Bool) (r : Request) :
    List StoreCall × List WriterEvent :=
  if r.method ≠ "GET" then
    ([], writeJSONError 405 "Only GET method is allowed" encodeOk)
  else
    ([.get redisCounterKey, .ping],
      [.setHeader "Content-Type" "text/plain; version=0.0.4; charset=utf-8",
        .writeHeader 200,
        .write (metricsBody (metricsVal store.get) (metricsConn store.ping))])

/-- First committed status in a writer trace. -/
def statusOf : List WriterEvent → Option Nat
  | [] => none
  | .writeHeader s :: _ => some s
  | _ :: rest => statusOf rest

/-- Concatenation of all body chunks written in a trace. -/
def bodyOf : List WriterEvent → String
  | [] => ""
  | .write c :: rest => c ++ bodyOf rest
  | _ :: rest => bodyOf rest

/-- Whether a writer event is a body write. -/
def isWriteEvent : WriterEvent → Bool
  | .write _ => true
  | _ => false

/-- Substring containment, stated by explicit decomposition. -/
def strContains (s pat : String) : Prop :=
  ∃ a b : String, s = a ++ (pat ++ b)

/-- The store contract for the counter key: `INCR` on an absent key
creates it at 1; otherwise it adds one; the post-increment value is
returned. State is the key's content, `none` when absent. -/
def incrState : Option Int → Int × Option Int
  | none => (1, some 1)
  | some v => (v + 1, some (v + 1))

/-- Key state after `k` sequential successful increments from `p`. -/
def stateAfter (p : Option Int) : Nat → Option Int
  | 0 => p
  | k + 1 => (incrState (stateAfter p k)).2

/-- The pre-existing value: 0 when the key is absent. -/
def baseVal (p : Option Int) : Int := (p.getD 0)

/-- The value the store's INCR returns at the k-th sequential
increment from initial content p. -/
def kthIncrValue (p : Option Int) (k : Nat) : Int :=
  (incrState (stateAfter p (k - 1))).1

/-- A trace is write-disciplined when it starts by setting the content
type, then commits the status, and afterwards only writes body
chunks. -/
def headerBeforeStatus : List WriterEvent → Bool
  | .setHeader "Content-Type" _ :: .writeHeader _ :: rest => rest.all isWriteEvent
  | _ => false

/-- A plain POST request to the write path. -/
def postWriteReq : Request := { method := "POST", path := "/write", headers := [], body := "" }

/-- A plain GET request. -/
def getReq (p : String) : Request := { method := "GET", path := p, headers := [], body := "" }

/-- Claim C1: for a POST request to /write where the store's atomic
increment succeeds and returns v, WriteHandler responds 200 with body
`{"value": v}`, v being exactly the store's post-increment return. -/
theorem writeHandler_success (store : Store) (r : Request) (v : Int)
    (hm : r.method = "POST") (hi : store.incr = .ok v) :
    statusOf (WriteHandler store true r).2 = some 200 ∧
    bodyOf (WriteHandler store true r).2 = jsonValue v := by
  simp [WriteHandler, hm, hi, writeJSON, statusOf, bodyOf]

/-- Witness for C1 at a concrete store outcome and request. -/
theorem writeHandler_success_witness :
    statusOf (WriteHandler ⟨.ok 7, .absent, .ok⟩ true postWriteReq).2 = some 200 ∧
    bodyOf (WriteHandler ⟨.ok 7, .absent, .ok⟩ true postWriteReq).2 = jsonValue 7 :=
  writeHandler_success ⟨.ok 7, .absent, .ok⟩ postWriteReq 7 rfl rfl

/-- Claim C2: for a GET request to /read where the counter key is
absent, ReadHandler responds 200 with body `{"value": 0}`; absence is
not surfaced as an error. -/
theorem readHandler_absent (store : Store) (r : Request)
    (hm : r.method = "GET") (hg : store.get = .absent) :
    statusOf (ReadHandler store true r).2 = some 200 ∧
    bodyOf (ReadHandler store true r).2 = jsonValue 0 := by
  simp [ReadHandler, hm, hg, getInt64, writeJSON, statusOf, bodyOf]

/-- Witness for C2 at a concrete store outcome and request. -/
theorem readHandler_absent_witness :
    statusOf (ReadHandler ⟨.ok 1, .absent, .ok⟩ true (getReq "/read")).2 = some 200 ∧
    bodyOf (ReadHandler ⟨.ok 1, .absent, .ok⟩ true (getReq "/read")).2 = jsonValue 0 :=
  readHandler_absent ⟨.ok 1, .absent, .ok⟩ (getReq "/read") rfl rfl

/-- Claim C5: for a POST request to /write where the store's increment
errors for any reason, WriteHandler responds 500 with the fixed body
`{"error": "Failed to update counter"}`; the underlying error message
e does not appear in the response. -/
theorem writeHandler_store_error (store : Store) (r : Request) (e : String)
    (hm : r.method = "POST") (hi : store.incr = .err e) :
    statusOf (WriteHandler store true r).2 = some 500 ∧
    bodyOf (WriteHandler store true r).2 = jsonError "Failed to update counter" := by
  simp [WriteHandler, hm, hi, writeJSONError, writeJSON, statusOf, bodyOf]

/-- Witness for C5 at a concrete store error. -/
theorem writeHandler_store_error_witness :
    statusOf (WriteHandler ⟨.err "connection refused", .absent, .ok⟩ true postWriteReq).2 = some 500 ∧
    bodyOf (WriteHandler ⟨.err "connection refused", .absent, .ok⟩ true postWriteReq).2 =
      jsonError "Failed to update counter" :=
  writeHandler_store_error ⟨.err "connection refused", .absent, .ok⟩ postWriteReq
    "connection refused" rfl rfl

/-- Claim C10: for each handler, two requests with the same method and
identical store outcomes (and wire condition) get identical responses:
the response never depends on the request body, headers or URL. -/
theorem response_depends_only_on_method (store : Store) (eok : Bool)
    (r1 r2 : Request) (hm : r1.method = r2.method) :
    WriteHandler store eok r1 = WriteHandler store eok r2 ∧
    ReadHandler store eok r1 = ReadHandler store eok r2 ∧
    HealthHandler store eok r1 = HealthHandler store eok r2 ∧
    MetricsHandler store eok r1 = MetricsHandler store eok r2 := by
  refine ⟨?_, ?_, ?_, ?_⟩ <;>
    simp only [WriteHandler, ReadHandler, HealthHandler, MetricsHandler, hm]

/-- Witness for C10: same method, different body, headers and path. -/
theorem response_depends_only_on_method_witness :
    WriteHandler ⟨.ok 3, .absent, .ok⟩ true ⟨"GET", "/read", [("X-Id", "1")], "junk"⟩ =
      WriteHandler ⟨.ok 3, .absent, .ok⟩ true (getReq "/other") ∧
    ReadHandler ⟨.ok 3, .absent, .ok⟩ true ⟨"GET", "/read", [("X-Id", "1")], "junk"⟩ =
      ReadHandler ⟨.ok 3, .absent, .ok⟩ true (getReq "/other") ∧
    HealthHandler ⟨.ok 3, .absent, .ok⟩ true ⟨"GET", "/read", [("X-Id", "1")], "junk"⟩ =
      HealthHandler ⟨.ok 3, .absent, .ok⟩ true (getReq "/other") ∧
    MetricsHandler ⟨.ok 3, .absent, .ok⟩ true ⟨"GET", "/read", [("X-Id", "1")], "junk"⟩ =
      MetricsHandler ⟨.ok 3, .absent, .ok⟩ true (getReq "/other") :=
  response_depends_only_on_method ⟨.ok 3, .absent, .ok⟩ true
    ⟨"GET", "/read", [("X-Id", "1")], "junk"⟩ (getReq "/other") rfl

/-- Claim C3: a request whose method differs from the expected verb is
answered 405 with `{"error": "Only <VERB> method is allowed"}` by each
of the four handlers, and the handler issues no store call at all. -/
theorem method_mismatch_rejected (store : Store) (eok : Bool) (r : Request) :
    (r.method ≠ "POST" →
      (WriteHandler store eok r).1 = [] ∧
      statusOf (WriteHandler store eok r).2 = some 405 ∧
      bodyOf (WriteHandler store true r).2 = jsonError "Only POST method is allowed") ∧
    (r.method ≠ "GET" →
      ((ReadHandler store eok r).1 = [] ∧
        statusOf (ReadHandler store eok r).2 = some 405 ∧
        bodyOf (ReadHandler store true r).2 = jsonError "Only GET method is allowed") ∧
      ((HealthHandler store eok r).1 = [] ∧
        statusOf (HealthHandler store eok r).2 = some 405 ∧
        bodyOf (HealthHandler store true r).2 = jsonError "Only GET method is allowed") ∧
      ((MetricsHandler store eok r).1 = [] ∧
        statusOf (MetricsHandler store eok r).2 = some 405 ∧
        bodyOf (MetricsHandler store true r).2 = jsonError "Only GET method is allowed")) := by
  refine ⟨fun hm => ?_, fun hm => ?_⟩ <;>
    cases eok <;>
    simp [WriteHandler, ReadHandler, HealthHandler, MetricsHandler, hm,
      writeJSONError, writeJSON, statusOf, bodyOf]

/-- Witness for C3: GET on the write path, POST on the read paths. -/
theorem method_mismatch_rejected_witness :
    ((WriteHandler ⟨.ok 1, .absent, .ok⟩ true (getReq "/write")).1 = [] ∧
      statusOf (WriteHandler ⟨.ok 1, .absent, .ok⟩ true (getReq "/write")).2 = some 405 ∧
      bodyOf (WriteHandler ⟨.ok 1, .absent, .ok⟩ true (getReq "/write")).2 =
        jsonError "Only POST method is allowed") ∧
    (((ReadHandler ⟨.ok 1, .absent, .ok⟩ true postWriteReq).1 = [] ∧
        statusOf (ReadHandler ⟨.ok 1, .absent, .ok⟩ true postWriteReq).2 = some 405 ∧
        bodyOf (ReadHandler ⟨.ok 1, .absent, .ok⟩ true postWriteReq).2 =
          jsonError "Only GET method is allowed") ∧
      ((HealthHandler ⟨.ok 1, .absent, .ok⟩ true postWriteReq).1 = [] ∧
        statusOf (HealthHandler ⟨.ok 1, .absent, .ok⟩ true postWriteReq).2 = some 405 ∧
        bodyOf (HealthHandler ⟨.ok 1, .absent, .ok⟩ true postWriteReq).2 =
          jsonError "Only GET method is allowed") ∧
      ((MetricsHandler ⟨.ok 1, .absent, .ok⟩ true postWriteReq).1 = [] ∧
        statusOf (MetricsHandler ⟨.ok 1, .absent, .ok⟩ true postWriteReq).2 = some 405 ∧
        bodyOf (MetricsHandler ⟨.ok 1, .absent, .ok⟩ true postWriteReq).2 =
          jsonError "Only GET method is allowed")) :=
  ⟨(method_mismatch_rejected ⟨.ok 1, .absent, .ok⟩ true (getReq "/write")).1 (by decide),
    (method_mismatch_rejected ⟨.ok 1, .absent, .ok⟩ true postWriteReq).2 (by decide)⟩

/-- Claim C7: for a GET request to /health, the response is 200 with
the healthy JSON (status, service, redis fields plus one constant
extra field) exactly when the liveness probe succeeds, and 503 with
`{"error": "Redis unavailable"}` exactly when the probe errors. -/
theorem healthHandler_cases (store : Store) (r : Request) (hm : r.method = "GET") :
    ((statusOf (HealthHandler store true r).2 = some 200 ∧
        bodyOf (HealthHandler store true r).2 = healthOkBody) ↔ store.ping = .ok) ∧
    ((statusOf (HealthHandler store true r).2 = some 503 ∧
        bodyOf (HealthHandler store true r).2 = jsonError "Redis unavailable") ↔
      store.ping ≠ .ok) := by
  cases hp : store.ping <;>
    simp [HealthHandler, hm, hp, writeJSONError, writeJSON, statusOf, bodyOf]

/-- Witness for C7 at a successful probe. -/
theorem healthHandler_cases_witness :
    ((statusOf (HealthHandler ⟨.ok 1, .absent, .ok⟩ true (getReq "/health")).2 = some 200 ∧
        bodyOf (HealthHandler ⟨.ok 1, .absent, .ok⟩ true (getReq "/health")).2 = healthOkBody) ↔
      (⟨.ok 1, .absent, .ok⟩ : Store).ping = .ok) ∧
    ((statusOf (HealthHandler ⟨.ok 1, .absent, .ok⟩ true (getReq "/health")).2 = some 503 ∧
        bodyOf (HealthHandler ⟨.ok 1, .absent, .ok⟩ true (getReq "/health")).2 =
          jsonError "Redis unavailable") ↔
      (⟨.ok 1, .absent, .ok⟩ : Store).ping ≠ .ok) :=
  healthHandler_cases ⟨.ok 1, .absent, .ok⟩ (getReq "/health") rfl

/-- Claim C9: a GET /read whose stored value is present but not
parseable as a 64-bit integer gets 500 with `{"error": "Failed to read
counter"}` — the same response as a store communication error — while
MetricsHandler maps the same store state to the -1 sentinel with 200. -/
theorem readHandler_parse_failure (store : Store) (r : Request) (s e : String)
    (hm : r.method = "GET") (hs : store.get = .found s) (hp : parseInt64 s = none) :
    (statusOf (ReadHandler store true r).2 = some 500 ∧
      bodyOf (ReadHandler store true r).2 = jsonError "Failed to read counter") ∧
    ReadHandler store true r = ReadHandler ⟨store.incr, .err e, store.ping⟩ true r ∧
    (statusOf (MetricsHandler store true r).2 = some 200 ∧
      bodyOf (MetricsHandler store true r).2 =
        metricsBody (-1) (metricsConn store.ping)) := by
  refine ⟨?_, ?_, ?_⟩ <;>
    simp [ReadHandler, MetricsHandler, hm, hs, hp, getInt64, metricsVal,
      writeJSONError, writeJSON, statusOf, bodyOf]

/-- Witness for C9 at the unparseable stored value "abc". -/
theorem readHandler_parse_failure_witness :
    (statusOf (ReadHandler ⟨.ok 1, .found "abc", .ok⟩ true (getReq "/read")).2 = some 500 ∧
      bodyOf (ReadHandler ⟨.ok 1, .found "abc", .ok⟩ true (getReq "/read")).2 =
        jsonError "Failed to read counter") ∧
    ReadHandler ⟨.ok 1, .found "abc", .ok⟩ true (getReq "/read") =
      ReadHandler ⟨(⟨.ok 1, .found "abc", .ok⟩ : Store).incr, .err "timeout",
        (⟨.ok 1, .found "abc", .ok⟩ : Store).ping⟩ true (getReq "/read") ∧
    (statusOf (MetricsHandler ⟨.ok 1, .found "abc", .ok⟩ true (getReq "/read")).2 = some 200 ∧
      bodyOf (MetricsHandler ⟨.ok 1, .found "abc", .ok⟩ true (getReq "/read")).2 =
        metricsBody (-1) (metricsConn (⟨.ok 1, .found "abc", .ok⟩ : Store).ping)) :=
  readHandler_parse_failure ⟨.ok 1, .found "abc", .ok⟩ (getReq "/read") "abc" "timeout"
    rfl rfl (by decide)

/-- A substring of the left part is a substring of an append. -/
theorem strContains_left (s t pat : String) (h : strContains s pat) :
    strContains (s ++ t) pat := by
  obtain ⟨a, b, rfl⟩ := h
  exact ⟨a, b ++ t, by simp [String.append_assoc]⟩

/-- A substring of the right part is a substring of an append. -/
theorem strContains_right (s t pat : String) (h : strContains t pat) :
    strContains (s ++ t) pat := by
  obtain ⟨a, b, rfl⟩ := h
  exact ⟨s ++ a, b, by simp [String.append_assoc]⟩

/-- Each of the three metric names appears in the metrics body preceded
by a `# HELP` line and a `# TYPE` line, for every exported value. -/
theorem metricsBody_markers (val : Int) (conn : Nat) :
    strContains (metricsBody val conn) "# HELP tikky_counter_total" ∧
    strContains (metricsBody val conn) "# TYPE tikky_counter_total" ∧
    strContains (metricsBody val conn) "# HELP tikky_redis_connected" ∧
    strContains (metricsBody val conn) "# TYPE tikky_redis_connected" ∧
    strContains (metricsBody val conn) "# HELP tikky_build_info" ∧
    strContains (metricsBody val conn) "# TYPE tikky_build_info" := by
  rw [metricsBody]
  refine ⟨strContains_left _ _ _ ?_, strContains_left _ _ _ ?_,
    strContains_right _ _ _ (strContains_right _ _ _ (strContains_left _ _ _ ?_)),
    strContains_right _ _ _ (strContains_right _ _ _ (strContains_left _ _ _ ?_)),
    strContains_right _ _ _ (strContains_right _ _ _ (strContains_right _ _ _
      (strContains_right _ _ _ ?_))),
    strContains_right _ _ _ (strContains_right _ _ _ (strContains_right _ _ _
      (strContains_right _ _ _ ?_)))⟩
  · exact ⟨"", " Total counter value (goes brrr)\n# TYPE tikky_counter_total counter\ntikky_counter_total ", rfl⟩
  · exact ⟨"# HELP tikky_counter_total Total counter value (goes brrr)\n", " counter\ntikky_counter_total ", rfl⟩
  · exact ⟨"\n\n", " Redis connection status (1=connected, 0=disconnected)\n# TYPE tikky_redis_connected gauge\ntikky_redis_connected ", rfl⟩
  · exact ⟨"\n\n# HELP tikky_redis_connected Redis connection status (1=connected, 0=disconnected)\n", " gauge\ntikky_redis_connected ", rfl⟩
  · exact ⟨"\n\n", " Build information\n# TYPE tikky_build_info gauge\ntikky_build_info\x7bversion=\"1.0.0\",service=\"tikky-api\"\x7d 1\n", rfl⟩
  · exact ⟨"\n\n# HELP tikky_build_info Build information\n", " gauge\ntikky_build_info\x7bversion=\"1.0.0\",service=\"tikky-api\"\x7d 1\n", rfl⟩

/-- Claim C4: a GET request to /metrics is always answered 200; a
failed counter read exports the -1 sentinel, an absent key exports 0,
a failed probe exports connectivity 0; the body carries the three
metric names each preceded by `# HELP` and `# TYPE` lines. -/
theorem metricsHandler_always_200 (store : Store) (r : Request) (e1 e2 : String)
    (hm : r.method = "GET") :
    statusOf (MetricsHandler store true r).2 = some 200 ∧
    bodyOf (MetricsHandler store true r).2 =
      metricsBody (metricsVal store.get) (metricsConn store.ping) ∧
    metricsVal (.err e1) = -1 ∧
    metricsVal .absent = 0 ∧
    metricsConn (.err e2) = 0 ∧
    strContains (bodyOf (MetricsHandler store true r).2) "# HELP tikky_counter_total" ∧
    strContains (bodyOf (MetricsHandler store true r).2) "# TYPE tikky_counter_total" ∧
    strContains (bodyOf (MetricsHandler store true r).2) "# HELP tikky_redis_connected" ∧
    strContains (bodyOf (MetricsHandler store true r).2) "# TYPE tikky_redis_connected" ∧
    strContains (bodyOf (MetricsHandler store true r).2) "# HELP tikky_build_info" ∧
    strContains (bodyOf (MetricsHandler store true r).2) "# TYPE tikky_build_info" := by
  have hb : bodyOf (MetricsHandler store true r).2 =
      metricsBody (metricsVal store.get) (metricsConn store.ping) := by
    simp [MetricsHandler, hm, statusOf, bodyOf]
  have hmk := metricsBody_markers (metricsVal store.get) (metricsConn store.ping)
  refine ⟨?_, hb, rfl, rfl, rfl, ?_, ?_, ?_, ?_, ?_, ?_⟩
  · simp [MetricsHandler, hm, statusOf]
  · exact hb ▸ hmk.1
  · exact hb ▸ hmk.2.1
  · exact hb ▸ hmk.2.2.1
  · exact hb ▸ hmk.2.2.2.1
  · exact hb ▸ hmk.2.2.2.2.1
  · exact hb ▸ hmk.2.2.2.2.2

/-- Witness for C4 at a store whose read and probe both fail. -/
theorem metricsHandler_always_200_witness :
    statusOf (MetricsHandler ⟨.ok 1, .err "boom", .err "down"⟩ true (getReq "/metrics")).2 = some 200 ∧
    bodyOf (MetricsHandler ⟨.ok 1, .err "boom", .err "down"⟩ true (getReq "/metrics")).2 =
      metricsBody (metricsVal (⟨.ok 1, .err "boom", .err "down"⟩ : Store).get)
        (metricsConn (⟨.ok 1, .err "boom", .err "down"⟩ : Store).ping) ∧
    metricsVal (.err "boom") = -1 ∧
    metricsVal .absent = 0 ∧
    metricsConn (.err "down") = 0 ∧
    strContains (bodyOf (MetricsHandler ⟨.ok 1, .err "boom", .err "down"⟩ true (getReq "/metrics")).2)
      "# HELP tikky_counter_total" ∧
    strContains (bodyOf (MetricsHandler ⟨.ok 1, .err "boom", .err "down"⟩ true (getReq "/metrics")).2)
      "# TYPE tikky_counter_total" ∧
    strContains (bodyOf (MetricsHandler ⟨.ok 1, .err "boom", .err "down"⟩ true (getReq "/metrics")).2)
      "# HELP tikky_redis_connected" ∧
    strContains (bodyOf (MetricsHandler ⟨.ok 1, .err "boom", .err "down"⟩ true (getReq "/metrics")).2)
      "# TYPE tikky_redis_connected" ∧
    strContains (bodyOf (MetricsHandler ⟨.ok 1, .err "boom", .err "down"⟩ true (getReq "/metrics")).2)
      "# HELP tikky_build_info" ∧
    strContains (bodyOf (MetricsHandler ⟨.ok 1, .err "boom", .err "down"⟩ true (getReq "/metrics")).2)
      "# TYPE tikky_build_info" :=
  metricsHandler_always_200 ⟨.ok 1, .err "boom", .err "down"⟩ (getReq "/metrics")
    "boom" "down" rfl

/-- The store contract: after one increment the key holds the
incremented value. -/
theorem stateAfter_succ (p : Option Int) (j : Nat) :
    stateAfter p (j + 1) = some (baseVal p + (j + 1 : Nat)) := by
  induction j with
  | zero => cases p <;> simp [stateAfter, incrState, baseVal]
  | succ n ih =>
    rw [stateAfter, ih]
    simp only [incrState]
    push_cast
    ring_nf

/-- The k-th sequential increment (k ≥ 1) returns the pre-existing
value plus k. -/
theorem kthIncrValue_eq (p : Option Int) (k : Nat) (h : 1 ≤ k) :
    kthIncrValue p k = baseVal p + (k : Nat) := by
  obtain ⟨j, rfl⟩ : ∃ j, k = j + 1 := ⟨k - 1, (Nat.succ_pred_eq_of_pos h).symm⟩
  cases j with
  | zero => cases p <;> simp [kthIncrValue, stateAfter, incrState, baseVal]
  | succ n =>
    rw [kthIncrValue, Nat.add_sub_cancel, stateAfter_succ]
    simp only [incrState]
    push_cast
    ring_nf

/-- Claim C6: in a strictly sequential run of N successful POST /write
requests against initial key content p, the k-th request (1 ≤ k ≤ N)
is answered 200 with body `{"value": p + k}` — monotone, no skipped or
duplicated values. -/
theorem sequential_write_values (p : Option Int) (g : GetRaw) (pr : PingResult)
    (N k : Nat) (h1 : 1 ≤ k) (h2 : k ≤ N) :
    statusOf (WriteHandler ⟨.ok (kthIncrValue p k), g, pr⟩ true postWriteReq).2 = some 200 ∧
    bodyOf (WriteHandler ⟨.ok (kthIncrValue p k), g, pr⟩ true postWriteReq).2 =
      jsonValue (baseVal p + (k : Nat)) := by
  rw [kthIncrValue_eq p k h1]
  exact writeHandler_success ⟨.ok (baseVal p + (k : Nat)), g, pr⟩ postWriteReq _ rfl rfl

/-- Claim C8: every handler sets the content type, then commits the
status, then only writes body chunks; a body-encoding failure
(encodeOk = false) leaves the committed status unchanged. -/
theorem response_writer_discipline (store : Store) (eok : Bool) (r : Request) :
    headerBeforeStatus (WriteHandler store eok r).2 = true ∧
    headerBeforeStatus (ReadHandler store eok r).2 = true ∧
    headerBeforeStatus (HealthHandler store eok r).2 = true ∧
    headerBeforeStatus (MetricsHandler store eok r).2 = true ∧
    statusOf (WriteHandler store true r).2 = statusOf (WriteHandler store false r).2 ∧
    statusOf (ReadHandler store true r).2 = statusOf (ReadHandler store false r).2 ∧
    statusOf (HealthHandler store true r).2 = statusOf (HealthHandler store false r).2 ∧
    statusOf (MetricsHandler store true r).2 = statusOf (MetricsHandler store false r).2 := by
  obtain ⟨i, g, pr⟩ := store
  refine ⟨?_, ?_, ?_, ?_, ?_, ?_, ?_, ?_⟩ <;>
    by_cases hp : r.method = "POST" <;> by_cases hg : r.method = "GET" <;>
    cases i <;> cases pr <;> cases hgg : getInt64 g <;> cases eok <;>
    simp [WriteHandler, ReadHandler, HealthHandler, MetricsHandler, hp, hg, hgg,
      writeJSONError, writeJSON, headerBeforeStatus, isWriteEvent, statusOf]

/-- Witness for C6: second of three writes on a key holding 5. -/
theorem sequential_write_values_witness :
    statusOf (WriteHandler ⟨.ok (kthIncrValue (some 5) 2), .absent, .ok⟩ true postWriteReq).2 =
      some 200 ∧
    bodyOf (WriteHandler ⟨.ok (kthIncrValue (some 5) 2), .absent, .ok⟩ true postWriteReq).2 =
      jsonValue (baseVal (some 5) + (2 : Nat)) :=
  sequential_write_values (some 5) .absent .ok 3 2 (by decide) (by decide)
